import Mathlib

/-!
Verification of the seth JSON-RPC account-call module
(`families/seth/rpc/src/calls/account.rs`).

Modelling conventions:

* A Rust `String` is modelled by its UTF-8 byte sequence `RStr := List Nat`
  (each element a byte value).  Rust measures `len()` in bytes and the byte
  slice `&s[2..]` panics when byte index 2 is not a character boundary, so a
  byte-level model is required to capture the validators faithfully.
* A Rust panic is modelled as `none`: fallible functions that may panic
  return `Option _`.
* `jsonrpc_core::Error` is modelled by `RpcError`: `Error::invalid_params(m)`
  carries its message, `error::not_implemented()` and
  `Error::internal_error()` are fixed parameterless errors.
* The ledger client (`ValidatorClient`) is an opaque collaborator: a
  structure of query functions.
* Items that live in `rpc/src/client.rs` (absent from the source tree:
  `BlockKey` parsing, `num_to_hex`, `bytes_to_hex_str`, `hex_prefix`) are
  modelled from the specification; their doc comments say so.
-/

/-- The byte sequence of a Rust `String` (UTF-8 bytes). -/
abbrev RStr := List Nat

deriving instance DecidableEq for Except

/-- Byte sequence of an ASCII string literal (UTF-8 coincides with the
character codes there). -/
def ascii (s : String) : RStr := s.data.map Char.toNat

/-- Rust `str::is_char_boundary i`: true at 0 and at the length, and at any
index holding a byte that is not a UTF-8 continuation byte (`0x80..0xBF`). -/
def is_char_boundary (s : RStr) (i : Nat) : Bool :=
  i == 0 ||
    (match s.get? i with
     | some b => !(decide (128 ≤ b) && decide (b < 192))
     | none => i == s.length)

/-- Number of UTF-8 characters of a valid UTF-8 byte sequence: the bytes
that are not continuation bytes. -/
def utf8CharCount (s : RStr) : Nat :=
  (s.filter (fun b => !(decide (128 ≤ b) && decide (b < 192)))).length

/-- Rendering of a byte string back into a Lean `String` for error
messages; exact for ASCII content (the only place it is observed). -/
def rstrToString (s : RStr) : String :=
  String.mk (s.map (fun b => Char.ofNat b))

/-- The three external error kinds of `jsonrpc_core::Error` used by this
module: `Error::invalid_params(msg)`, `error::not_implemented()`,
`Error::internal_error()`. -/
inductive RpcError where
  | invalidParams (msg : String)
  | notImplemented
  | internalError
deriving DecidableEq, Repr

/-- Type `jsonrpc_core::Value` as used here: `Value::Null` and string values. -/
inductive Value where
  | null
  | str (s : String)
deriving DecidableEq, Repr

/-- Type `client::BlockKey` (declared in `rpc/src/client.rs`): the typed block
selector. -/
inductive BlockKey where
  | Latest
  | Pending
  | Number (n : Nat)
  | Hash (bytes : List Nat)
deriving DecidableEq, Repr

/-- Type `client::BlockKeyParseError`. -/
inductive BlockKeyParseError where
  | Invalid
  | Unsupported
deriving DecidableEq, Repr

/-- Whether a byte is an ASCII hex digit (`0-9`, `a-f`, `A-F`). -/
def isHexDigitByte (b : Nat) : Bool :=
  (decide (48 ≤ b) && decide (b ≤ 57)) ||
  (decide (97 ≤ b) && decide (b ≤ 102)) ||
  (decide (65 ≤ b) && decide (b ≤ 70))

/-- Value of an ASCII hex-digit byte. -/
def hexDigitVal (b : Nat) : Nat :=
  if 48 ≤ b ∧ b ≤ 57 then b - 48
  else if 97 ≤ b ∧ b ≤ 102 then b - 87
  else if 65 ≤ b ∧ b ≤ 70 then b - 55
  else 0

/-- Numeric value of a big-endian sequence of hex-digit bytes. -/
def hexValue (l : List Nat) : Nat :=
  l.foldl (fun acc b => acc * 16 + hexDigitVal b) 0

/-- Decode pairs of hex-digit bytes into bytes. -/
def hexPairsToBytes : List Nat → List Nat
  | a :: b :: rest => (hexDigitVal a * 16 + hexDigitVal b) :: hexPairsToBytes rest
  | _ => []

/-- Modelled from the spec: the `FromStr` parse of `BlockKey` (implemented
in `rpc/src/client.rs`, absent from the source tree).  Per spec section 4.2
and section 3 the parser accepts the tag keywords and `0x`-prefixed
quantities; `latest` and `pending` map to the corresponding supported
variants, `earliest` is recognized but unsupported, a `0x`-prefixed hex
quantity of 64 digits is a 32-byte hash, a shorter one that fits `u64` is a
block number, and everything else is syntactically invalid. -/
def parseBlockKey (block : RStr) : Except BlockKeyParseError BlockKey :=
  if block = ascii ("latest") then .ok .Latest
  else if block = ascii ("pending") then .ok .Pending
  else if block = ascii ("earliest") then .error .Unsupported
  else if block.take 2 ≠ ascii ("0x") then .error .Invalid
  else
    let digits := block.drop 2
    if digits = [] then .error .Invalid
    else if !digits.all isHexDigitByte then .error .Invalid
    else if digits.length = 64 then .ok (.Hash (hexPairsToBytes digits))
    else if hexValue digits < 2 ^ 64 then .ok (.Number (hexValue digits))
    else .error .Invalid

/-- Source function `validate_block_key` (account.rs lines 46-56): maps the parse result,
turning `Invalid` into `InvalidParams` with the fixed message and
`Unsupported` into the not-implemented error. -/
def validate_block_key (block : RStr) : Except RpcError BlockKey :=
  match parseBlockKey block with
  | .ok k => .ok k
  | .error .Invalid => .error (.invalidParams ("Failed to parse block number"))
  | .error .Unsupported => .error .notImplemented

/-- Modelled from the spec: `num_to_hex` from `rpc/src/client.rs` (absent
from the source tree).  Spec section 4.1: `0x` plus minimal lowercase hex,
value 0 rendering as `0x0`. -/
def num_to_hex (n : Nat) : Value :=
  .str ("0x" ++ String.mk (Nat.toDigits 16 n))

/-- Modelled from the spec: `bytes_to_hex_str` from `rpc/src/client.rs`
(absent from the source tree).  Spec section 4.1: lowercase hex, two digits
per byte, no prefix. -/
def bytes_to_hex_str (bytes : List Nat) : String :=
  String.mk ((bytes.map (fun b => [Nat.digitChar (b / 16 % 16), Nat.digitChar (b % 16)])).flatten)

/-- Modelled from the spec: `hex_prefix` from `rpc/src/client.rs` (absent
from the source tree).  Spec section 4.1: prepend `0x`; the handlers use it
to build a string `Value`. -/
def hex_prefixed (s : String) : Value :=
  .str ("0x" ++ s)

/-- Source function `validate_account_address` (account.rs lines 58-65).  `address.len()`
is the byte length; `&address[2..]` panics (`none`) when byte index 2 is
not a character boundary. -/
def validate_account_address (address : RStr) : Option (Except RpcError RStr) :=
  if address.length ≠ 42 then
    some (.error (.invalidParams
      ("Invalid address length: " ++ toString address.length ++ " != 42")))
  else if is_char_boundary address 2 then
    some (.ok (address.drop 2))
  else
    none

/-- Source function `validate_storage_address` (account.rs lines 67-73); same slicing
behaviour as `validate_account_address`. -/
def validate_storage_address (address : RStr) : Option (Except RpcError RStr) :=
  if address.length < 4 ∨ address.length % 2 ≠ 0 then
    some (.error (.invalidParams ("Invalid storage position: " ++ rstrToString address)))
  else if is_char_boundary address 2 then
    some (.ok (address.drop 2))
  else
    none

/-- Type `client::Account`: the ledger-side account entity (balance and code are
the fields read by this module). -/
structure Account where
  balance : Nat
  code : List Nat
deriving DecidableEq, Repr

/-- A ledger-client failure value (carries the backend failure text that is
logged but must never reach the caller). -/
structure ClientError where
  msg : String
deriving DecidableEq, Repr

/-- Type `client::ValidatorClient`, treated as an opaque query interface: the
two query functions the handlers invoke. -/
structure ValidatorClient where
  get_account : RStr → BlockKey → Except ClientError (Option Account)
  get_storage_at : RStr → RStr → BlockKey → Except ClientError (Option (List Nat))

/-- A client every query of which fails with the given error. -/
def failingClient (e : ClientError) : ValidatorClient where
  get_account := fun _ _ => .error e
  get_storage_at := fun _ _ _ => .error e

/-- A client every query of which reports absence. -/
def nullClient : ValidatorClient where
  get_account := fun _ _ => .ok none
  get_storage_at := fun _ _ _ => .ok none

/-- A client returning fixed answers to both queries. -/
def constClient (a : Except ClientError (Option Account))
    (s : Except ClientError (Option (List Nat))) : ValidatorClient where
  get_account := fun _ _ => a
  get_storage_at := fun _ _ _ => s

/-- The positional JSON-RPC parameter list (an array of strings is the only
shape the handlers parse successfully; any other shape fails their
parameter parse). -/
abbrev Params := List RStr

/-- A handler outcome: `none` is a panic, otherwise a wire value or error. -/
abbrev HandlerResult := Option (Except RpcError Value)

/-- Source function `get_balance` (account.rs lines 75-95): parse `(address, block)`,
resolve the block key, validate the address, query `get_account`, encode
the balance. -/
def get_balance (params : Params) (client : ValidatorClient) : HandlerResult :=
  match params with
  | [address, block] =>
    match validate_block_key block with
    | .error e => some (.error e)
    | .ok key =>
      match validate_account_address address with
      | none => none
      | some (.error e) => some (.error e)
      | some (.ok addr) =>
        match client.get_account addr key with
        | .ok (some account) => some (.ok (num_to_hex account.balance))
        | .ok none => some (.ok .null)
        | .error _ => some (.error .internalError)
  | _ => some (.error (.invalidParams ("Takes [address: DATA(20), block: QUANTITY|TAG]")))

/-- Source function `get_storage_at` (account.rs lines 97-118): parse
`(address, position, block)`, resolve the block key, validate the account
address then the storage position, query `get_storage_at`, hex-encode the
bytes. -/
def get_storage_at (params : Params) (client : ValidatorClient) : HandlerResult :=
  match params with
  | [address, position, block] =>
    match validate_block_key block with
    | .error e => some (.error e)
    | .ok key =>
      match validate_account_address address with
      | none => none
      | some (.error e) => some (.error e)
      | some (.ok accountAddr) =>
        match validate_storage_address position with
        | none => none
        | some (.error e) => some (.error e)
        | some (.ok storageAddr) =>
          match client.get_storage_at accountAddr storageAddr key with
          | .ok (some value) => some (.ok (hex_prefixed (bytes_to_hex_str value)))
          | .ok none => some (.ok .null)
          | .error _ => some (.error .internalError)
  | _ => some (.error (.invalidParams ("Takes [address: DATA(20), position: QUANTITY, block: QUANTITY|TAG]")))

/-- Source function `get_code` (account.rs lines 120-140): same shape as `get_balance`,
encoding `account.code` as prefixed hex. -/
def get_code (params : Params) (client : ValidatorClient) : HandlerResult :=
  match params with
  | [address, block] =>
    match validate_block_key block with
    | .error e => some (.error e)
    | .ok key =>
      match validate_account_address address with
      | none => none
      | some (.error e) => some (.error e)
      | some (.ok addr) =>
        match client.get_account addr key with
        | .ok (some account) => some (.ok (hex_prefixed (bytes_to_hex_str account.code)))
        | .ok none => some (.ok .null)
        | .error _ => some (.error .internalError)
  | _ => some (.error (.invalidParams ("Takes [address: DATA(20), block: QUANTITY|TAG]")))

/-- Source function `sign` (account.rs lines 141-143): unconditionally not implemented. -/
def sign (_params : Params) (_client : ValidatorClient) : HandlerResult :=
  some (.error .notImplemented)

/-- Source function `call` (account.rs lines 144-146): unconditionally not implemented. -/
def call (_params : Params) (_client : ValidatorClient) : HandlerResult :=
  some (.error .notImplemented)

/-- Source function `accounts` (account.rs lines 147-149): unconditionally not
implemented. -/
def accounts (_params : Params) (_client : ValidatorClient) : HandlerResult :=
  some (.error .notImplemented)

/-- Source function `get_method_list` (account.rs lines 33-44): the ordered name-to-handler
table handed to the external dispatcher. -/
def get_method_list : List (String × (Params → ValidatorClient → HandlerResult)) :=
  [ ("eth_getBalance", get_balance),
    ("eth_getStorageAt", get_storage_at),
    ("eth_getCode", get_code),
    ("eth_sign", sign),
    ("eth_call", call),
    ("eth_accounts", accounts) ]

/-- A well-formed test address: `0x` followed by forty `a` characters. -/
def addrA : RStr := ascii ("0x") ++ List.replicate 40 97

/-- A 42-byte valid UTF-8 string beginning with the three-byte character
U+20AC followed by thirty-nine `a` characters; byte index 2 is a
continuation byte. -/
def euroAddr : RStr := [226, 130, 172] ++ List.replicate 39 97

/-- A 4-byte valid UTF-8 string: the three-byte character U+20AC followed
by one `a`; even length at least 4, byte index 2 a continuation byte. -/
def euroPos : RStr := [226, 130, 172, 97]

/-- A 42-byte valid UTF-8 string of 41 characters: `0x`, thirty-eight `a`,
then the two-byte character U+00E9. -/
def mixedAddr : RStr := ascii ("0x") ++ List.replicate 38 97 ++ [195, 169]

/-- Forty-two `z` characters: no `0x` prefix and no hex digit anywhere. -/
def zAddr : RStr := List.replicate 42 122

/-- Four `z` characters: no `0x` prefix and no hex digit anywhere. -/
def zPos : RStr := List.replicate 4 122

/-- A three-character storage-position string. -/
def pos3 : RStr := ascii ("0x0")

/-- A well-formed four-character storage position. -/
def posOk : RStr := ascii ("0x00")

/-- Helper: an input all of whose bytes are ASCII has a character boundary
at any index below its length. -/
theorem ascii_is_char_boundary (s : RStr) (h : ∀ b ∈ s, b < 128) (i : Nat)
    (hi : i < s.length) : is_char_boundary s i = true := by
  have hg : s[i]? = some s[i] := List.getElem?_eq_getElem hi
  have hb2 : s[i] < 128 := h _ (List.getElem_mem hi)
  unfold is_char_boundary
  simp [hg]
  omega

/-- Helper: `validate_block_key` never produces the internal error. -/
theorem validate_block_key_not_internal (b : RStr) :
    validate_block_key b ≠ .error .internalError := by
  unfold validate_block_key
  cases parseBlockKey b with
  | ok k => simp
  | error e => cases e <;> simp

/-- Helper: every error produced by `validate_account_address` is an
invalid-params error. -/
theorem validate_account_address_error_shape (s : RStr) (e : RpcError)
    (h : validate_account_address s = some (.error e)) :
    ∃ m, e = .invalidParams m := by
  unfold validate_account_address at h
  split at h
  · exact ⟨_, by simpa using h.symm⟩
  · split at h
    · simp at h
    · simp at h

/-- Claim C1 (amended): `validate_account_address` fails with an
invalid-params error for every input whose byte length differs from 42,
and for every input of byte length 42 whose byte index 2 is a character
boundary it returns the byte suffix from index 2 unchanged, with no hex
or checksum check. -/
theorem validate_account_address_length_spec (s : RStr) :
    (s.length ≠ 42 →
      validate_account_address s = some (.error (.invalidParams
        ("Invalid address length: " ++ toString s.length ++ " != 42"))))
    ∧ (s.length = 42 → is_char_boundary s 2 = true →
      validate_account_address s = some (.ok (s.drop 2))) := by
  constructor
  · intro h
    simp [validate_account_address, h]
  · intro h hb
    simp [validate_account_address, h, hb]

/-- Witness for the amended C1 theorem: a 42-byte string of `z` characters
succeeds with the suffix returned, and a 2-byte string fails with the
invalid-params error. -/
theorem validate_account_address_length_spec_witness :
    validate_account_address zAddr = some (.ok (zAddr.drop 2))
    ∧ validate_account_address (ascii ("0x")) = some (.error (.invalidParams
        ("Invalid address length: " ++ toString (ascii ("0x")).length ++ " != 42"))) :=
  ⟨(validate_account_address_length_spec zAddr).2 (by decide) (by decide),
   (validate_account_address_length_spec (ascii ("0x"))).1 (by decide)⟩

/-- Claim C1 counterexample: a 42-byte valid UTF-8 input beginning with a
three-byte character makes the byte slice panic, so the function does not
succeed on every input of length 42. -/
theorem validate_account_address_panic_cex :
    euroAddr.length = 42 ∧ validate_account_address euroAddr = none := by
  decide

/-- Claim C5 (amended): `validate_storage_address` fails with an
invalid-params error for every input whose byte length is below 4 or odd,
and for every input of even byte length at least 4 whose byte index 2 is a
character boundary it returns the byte suffix after the first two bytes,
with no further divisibility or hex check. -/
theorem validate_storage_address_length_spec (s : RStr) :
    (s.length < 4 ∨ s.length % 2 ≠ 0 →
      validate_storage_address s = some (.error (.invalidParams
        ("Invalid storage position: " ++ rstrToString s))))
    ∧ (4 ≤ s.length → s.length % 2 = 0 → is_char_boundary s 2 = true →
      validate_storage_address s = some (.ok (s.drop 2))) := by
  constructor
  · intro h
    simp only [validate_storage_address, if_pos h]
  · intro h4 h2 hb
    simp [validate_storage_address, hb]
    omega

/-- Witness for the amended C5 theorem: a 4-byte string of `z` characters
succeeds with the suffix returned, and a 3-byte string fails with the
invalid-params error. -/
theorem validate_storage_address_length_spec_witness :
    validate_storage_address zPos = some (.ok (zPos.drop 2))
    ∧ validate_storage_address pos3 = some (.error (.invalidParams
        ("Invalid storage position: " ++ rstrToString pos3))) :=
  ⟨(validate_storage_address_length_spec zPos).2 (by decide) (by decide) (by decide),
   (validate_storage_address_length_spec pos3).1 (by decide)⟩

/-- Claim C5 counterexample: a 4-byte valid UTF-8 input beginning with a
three-byte character has even length at least 4, yet the byte slice panics
instead of succeeding. -/
theorem validate_storage_address_panic_cex :
    euroPos.length = 4 ∧ euroPos.length % 2 = 0
    ∧ validate_storage_address euroPos = none := by
  decide

/-- Claim C9: the validators are not total. For an account address of byte
length 42, or a storage position of even byte length at least 4, whose byte
index 2 is not a character boundary (it falls inside a multi-byte UTF-8
character), the slice at byte index 2 panics, modelled as `none`. -/
theorem validators_panic_on_non_boundary (s t : RStr) :
    (s.length = 42 → is_char_boundary s 2 = false →
      validate_account_address s = none)
    ∧ (4 ≤ t.length → t.length % 2 = 0 → is_char_boundary t 2 = false →
      validate_storage_address t = none) := by
  constructor
  · intro h hb
    simp [validate_account_address, h, hb]
  · intro h4 h2 hb
    simp [validate_storage_address, hb]
    omega

/-- Witness for C9 at the two concrete inputs beginning with a three-byte
character. -/
theorem validators_panic_on_non_boundary_witness :
    validate_account_address euroAddr = none
    ∧ validate_storage_address euroPos = none :=
  ⟨(validators_panic_on_non_boundary euroAddr euroPos).1 (by decide) (by decide),
   (validators_panic_on_non_boundary euroAddr euroPos).2 (by decide) (by decide) (by decide)⟩

/-- Claim C10: neither validator checks for a `0x` prefix. Every ASCII
input of byte length 42 (respectively of even byte length at least 4)
passes validation with its first two bytes stripped, whatever they are;
and length is measured in bytes, not characters, as shown by a 42-byte,
41-character input that passes the account validator. -/
theorem validators_no_prefix_check (s t : RStr) :
    ((∀ b ∈ s, b < 128) → s.length = 42 →
      validate_account_address s = some (.ok (s.drop 2)))
    ∧ ((∀ b ∈ t, b < 128) → 4 ≤ t.length → t.length % 2 = 0 →
      validate_storage_address t = some (.ok (t.drop 2)))
    ∧ (mixedAddr.length = 42 ∧ utf8CharCount mixedAddr = 41
      ∧ validate_account_address mixedAddr = some (.ok (mixedAddr.drop 2))) := by
  refine ⟨?_, ?_, by decide⟩
  · intro hA h
    have hb : is_char_boundary s 2 = true :=
      ascii_is_char_boundary s hA 2 (by omega)
    simp [validate_account_address, h, hb]
  · intro hA h4 h2
    have hb : is_char_boundary t 2 = true :=
      ascii_is_char_boundary t hA 2 (by omega)
    simp [validate_storage_address, hb]
    omega

/-- Witness for C10 at all-`z` inputs (no `0x` prefix, no hex digits). -/
theorem validators_no_prefix_check_witness :
    validate_account_address zAddr = some (.ok (List.replicate 40 122))
    ∧ validate_storage_address zPos = some (.ok (List.replicate 2 122)) :=
  ⟨by
     have h := (validators_no_prefix_check zAddr zPos).1 (by decide) (by decide)
     simpa using h,
   by
     have h := (validators_no_prefix_check zAddr zPos).2.1 (by decide) (by decide) (by decide)
     simpa using h⟩

/-- Claim C2: `validate_block_key` classifies every input string into
exactly one of three disjoint, exhaustive outcomes: a parsed block key, the
invalid-params error with message "Failed to parse block number", or the
not-implemented error for a recognized but unsupported selection mode. -/
theorem validate_block_key_trichotomy (s : RStr) :
    ((∃ k, validate_block_key s = .ok k)
      ∨ validate_block_key s = .error (.invalidParams ("Failed to parse block number"))
      ∨ validate_block_key s = .error .notImplemented)
    ∧ ¬((∃ k, validate_block_key s = .ok k)
      ∧ validate_block_key s = .error (.invalidParams ("Failed to parse block number")))
    ∧ ¬((∃ k, validate_block_key s = .ok k)
      ∧ validate_block_key s = .error .notImplemented)
    ∧ ¬(validate_block_key s = .error (.invalidParams ("Failed to parse block number"))
      ∧ validate_block_key s = .error .notImplemented) := by
  refine ⟨?_, ?_, ?_, ?_⟩
  · unfold validate_block_key
    cases parseBlockKey s with
    | ok k => exact .inl ⟨k, rfl⟩
    | error e =>
      cases e with
      | Invalid => exact .inr (.inl rfl)
      | Unsupported => exact .inr (.inr rfl)
  · rintro ⟨⟨k, hk⟩, h⟩
    rw [hk] at h
    exact Except.noConfusion h
  · rintro ⟨⟨k, hk⟩, h⟩
    rw [hk] at h
    exact Except.noConfusion h
  · rintro ⟨h1, h2⟩
    rw [h1] at h2
    simp at h2

/-- Witness for C2 at three concrete inputs, one per class: a supported
tag, a malformed string, and a recognized but unsupported tag. -/
theorem validate_block_key_trichotomy_witness :
    validate_block_key (ascii ("latest")) = .ok .Latest
    ∧ validate_block_key (ascii ("bogus")) = .error (.invalidParams ("Failed to parse block number"))
    ∧ validate_block_key (ascii ("earliest")) = .error .notImplemented
    ∧ ¬((∃ k, validate_block_key (ascii ("latest")) = .ok k)
      ∧ validate_block_key (ascii ("latest")) = .error .notImplemented) :=
  ⟨by decide, by decide, by decide,
   (validate_block_key_trichotomy (ascii ("latest"))).2.2.1⟩

/-- Claim C3: for every pair of ledger-client failure values, each
implemented handler returns the same fixed opaque internal error: the
failure text neither influences nor appears in the caller-visible error. -/
theorem client_failure_opaque (e1 e2 : ClientError) (addr pos blk : RStr)
    (k : BlockKey) (a p : RStr)
    (hb : validate_block_key blk = .ok k)
    (ha : validate_account_address addr = some (.ok a))
    (hp : validate_storage_address pos = some (.ok p)) :
    get_balance [addr, blk] (failingClient e1) = some (.error .internalError)
    ∧ get_balance [addr, blk] (failingClient e1)
        = get_balance [addr, blk] (failingClient e2)
    ∧ get_storage_at [addr, pos, blk] (failingClient e1) = some (.error .internalError)
    ∧ get_storage_at [addr, pos, blk] (failingClient e1)
        = get_storage_at [addr, pos, blk] (failingClient e2)
    ∧ get_code [addr, blk] (failingClient e1) = some (.error .internalError)
    ∧ get_code [addr, blk] (failingClient e1)
        = get_code [addr, blk] (failingClient e2) := by
  simp [get_balance, get_storage_at, get_code, hb, ha, hp, failingClient]

/-- Witness for C3 at a concrete valid request with two distinct backend
failure texts. -/
theorem client_failure_opaque_witness :
    get_balance [addrA, ascii ("latest")] (failingClient ⟨"connection refused"⟩)
      = some (.error .internalError)
    ∧ get_storage_at [addrA, posOk, ascii ("latest")] (failingClient ⟨"connection refused"⟩)
      = some (.error .internalError)
    ∧ get_code [addrA, ascii ("latest")] (failingClient ⟨"connection refused"⟩)
      = some (.error .internalError) :=
  let h := client_failure_opaque ⟨"connection refused"⟩ ⟨"backend timed out"⟩
    addrA posOk (ascii ("latest")) .Latest (addrA.drop 2) (posOk.drop 2)
    (by decide) (by decide) (by decide)
  ⟨h.1, h.2.2.1, h.2.2.2.2.1⟩

/-- Claim C4: with a valid 42-character address and a block selector that
resolves successfully, `get_balance` returns the hex-quantity encoding of
the account balance when the client finds an account, and the wire null
value as a success when the client finds none. -/
theorem get_balance_success_spec (addr blk : RStr) (c : ValidatorClient)
    (k : BlockKey) (a : RStr)
    (hb : validate_block_key blk = .ok k)
    (ha : validate_account_address addr = some (.ok a)) :
    (∀ acct, c.get_account a k = .ok (some acct) →
      get_balance [addr, blk] c = some (.ok (num_to_hex acct.balance)))
    ∧ (c.get_account a k = .ok none →
      get_balance [addr, blk] c = some (.ok .null)) := by
  constructor
  · intro acct hc
    simp [get_balance, hb, ha, hc]
  · intro hc
    simp [get_balance, hb, ha, hc]

/-- Witness for C4: the spec end-to-end example. With the address `0x`
plus forty `a`, block tag `latest`, and a client holding balance 10, the
result is the hex encoding of 10, namely the string `0xa`; with a client
holding no account, the result is the null success value. -/
theorem get_balance_success_spec_witness :
    get_balance [addrA, ascii ("latest")]
      (constClient (.ok (some (Account.mk 10 []))) (.ok none))
      = some (.ok (num_to_hex 10))
    ∧ get_balance [addrA, ascii ("latest")] nullClient = some (.ok .null)
    ∧ num_to_hex 10 = .str "0xa" :=
  ⟨(get_balance_success_spec addrA (ascii ("latest"))
      (constClient (.ok (some (Account.mk 10 []))) (.ok none)) .Latest
      (addrA.drop 2) (by decide) (by decide)).1 (Account.mk 10 []) rfl,
   (get_balance_success_spec addrA (ascii ("latest")) nullClient .Latest
      (addrA.drop 2) (by decide) (by decide)).2 rfl,
   by decide⟩

/-- Claim C6 (amended): for every `eth_getStorageAt` request whose position
parameter is a 3-character string, provided block-key resolution does not
fail with the not-implemented error and the address does not trigger the
byte-slice panic, the handler returns an invalid-params error, and the
result is independent of the ledger client, which is therefore never
invoked on that path. -/
theorem get_storage_at_three_char_spec (addr pos blk : RStr) (c : ValidatorClient)
    (h3 : pos.length = 3)
    (hb : validate_block_key blk ≠ .error .notImplemented)
    (ha : validate_account_address addr ≠ none) :
    (∃ msg, get_storage_at [addr, pos, blk] c = some (.error (.invalidParams msg)))
    ∧ get_storage_at [addr, pos, blk] c = get_storage_at [addr, pos, blk] nullClient := by
  cases hk : validate_block_key blk with
  | error e =>
    cases e with
    | invalidParams m =>
      exact ⟨⟨m, by simp [get_storage_at, hk]⟩, by simp [get_storage_at, hk]⟩
    | notImplemented => exact absurd hk hb
    | internalError => exact absurd hk (validate_block_key_not_internal blk)
  | ok k =>
    cases hA : validate_account_address addr with
    | none => exact absurd hA ha
    | some r =>
      cases r with
      | error e =>
        obtain ⟨m, hm⟩ := validate_account_address_error_shape addr e hA
        subst hm
        exact ⟨⟨m, by simp [get_storage_at, hk, hA]⟩, by simp [get_storage_at, hk, hA]⟩
      | ok a =>
        have hs : validate_storage_address pos = some (.error (.invalidParams
            ("Invalid storage position: " ++ rstrToString pos))) :=
          (validate_storage_address_length_spec pos).1 (by omega)
        exact ⟨⟨"Invalid storage position: " ++ rstrToString pos,
            by simp [get_storage_at, hk, hA, hs]⟩,
          by simp [get_storage_at, hk, hA, hs]⟩

/-- Witness for the amended C6 theorem at a concrete request, under a
client that would fail loudly if it were ever invoked. -/
theorem get_storage_at_three_char_spec_witness :
    (∃ msg, get_storage_at [addrA, pos3, ascii ("latest")]
      (failingClient ⟨"must not be called"⟩) = some (.error (.invalidParams msg)))
    ∧ get_storage_at [addrA, pos3, ascii ("latest")]
        (failingClient ⟨"must not be called"⟩)
      = get_storage_at [addrA, pos3, ascii ("latest")] nullClient :=
  get_storage_at_three_char_spec addrA pos3 (ascii ("latest"))
    (failingClient ⟨"must not be called"⟩) (by decide) (by decide) (by decide)

/-- Claim C6 counterexample: a request whose position is the 3-character
string `0x0` but whose 42-byte address begins with a three-byte character
makes the handler panic at the address slice (`none`), not return an
invalid-params error. -/
theorem get_storage_at_three_char_cex :
    pos3.length = 3
    ∧ get_storage_at [euroAddr, pos3, ascii ("latest")] nullClient = none := by
  decide

/-- Claim C7: the handlers for `eth_sign`, `eth_call` and `eth_accounts`
return the not-implemented error for every argument list and every client,
so the result never depends on the ledger client. -/
theorem stubs_not_implemented (p : Params) (c : ValidatorClient) :
    sign p c = some (.error .notImplemented)
    ∧ call p c = some (.error .notImplemented)
    ∧ accounts p c = some (.error .notImplemented) :=
  ⟨rfl, rfl, rfl⟩

/-- Claim C8: the method table has exactly six entries, with the six
method names in their fixed order, each paired with its handler. -/
theorem get_method_list_spec :
    get_method_list.length = 6
    ∧ get_method_list.map Prod.fst =
      ["eth_getBalance", "eth_getStorageAt", "eth_getCode",
       "eth_sign", "eth_call", "eth_accounts"]
    ∧ get_method_list =
      [("eth_getBalance", get_balance), ("eth_getStorageAt", get_storage_at),
       ("eth_getCode", get_code), ("eth_sign", sign), ("eth_call", call),
       ("eth_accounts", accounts)] :=
  ⟨rfl, rfl, rfl⟩
